import Mathlib

/-!
Verification of the fastify-bullmq report service against its specification.

The development shallowly embeds the pure logic of the source files
`src/pdv-report/worker.ts`, `src/queue.ts` and `src/index.ts`:

* machine numbers (JS `number`) are modelled as exact rationals `ℚ`;
  `Math.round` becomes `jsRound` (floor of `x + 1/2`, JS round-half-up);
* JS values that may be `undefined`/`null` are modelled as `Option`;
* the external calls of the pipeline (Claude text generation, the PDF
  renderer, Postmark, Prisma, BullMQ, `fetch`) are modelled by explicit
  outcome parameters (`ExtResult`): `ok` carries the value the call
  returned, `fail` carries the message of the exception it threw;
* `JSON.parse` of a Claude response is an abstract parameter
  (`String → Option _`, `none` = the parse threw), `JSON.stringify` of a
  structured artifact is kept structured (stringify/parse of plain data
  round-trips, and stringify of an object is never the empty string).
-/

/-! ## Numeric helpers (worker.ts) -/

/-- JS `Math.round`: round half toward positive infinity. -/
def jsRound (q : ℚ) : ℤ := ⌊q + 1 / 2⌋

/-- `isUnrealisticPercent` (worker.ts lines 416-419): `undefined`/`null`
is unrealistic, and so is any value `≤ 0` or `≥ 100`. -/
def isUnrealisticPercent (value : Option ℚ) : Bool :=
  match value with
  | none => true
  | some v => v ≤ 0 || 100 ≤ v

/-- The inline sanitization of `generatePDVCalculation` (worker.ts lines
504-515): an unrealistic extracted percentage is replaced by the
corresponding pre-analysis metric, defaulting to 50 when that metric is
absent; a realistic one is kept. -/
def sanitizePercent (extracted fallback : Option ℚ) : ℚ :=
  if isUnrealisticPercent extracted then fallback.getD 50
  else extracted.getD 0

/-! ## Valuation calculation (worker.ts, `generatePDVCalculation`) -/

/-- The `extractedMetrics` shape produced by stage 1 and consumed as the
fallback source by the valuation stage (`PreADVExtractedMetrics`,
worker.ts lines 403-409). Every field may be absent. -/
structure PreADVExtractedMetrics where
  dataReliancePercent : Option ℚ
  dataAttributePercent : Option ℚ
  dataUniquenessPercent : Option ℚ
  dataScarcityPercent : Option ℚ
  dataOwnershipPercent : Option ℚ
deriving Repr, DecidableEq

/-- The structured extraction of the free-text PDV answers (worker.ts
lines 489-495).  The two percent fields may be missing from the JSON the
model returned, hence `Option`. -/
structure PDVExtractedData where
  yearsCollectingData : ℚ
  dataAttributablePercent : Option ℚ
  dataReliancePercent : Option ℚ
  currentCompanyValue : ℚ
  yearlyValuations : List ℚ
deriving Repr, DecidableEq

/-- All intermediate and final values of the valuation arithmetic of
`generatePDVCalculation` (worker.ts lines 504-627). -/
structure PDVCalcOutput where
  dataReliancePercent : ℚ
  dataAttributablePercent : ℚ
  dataScarcityPercent : ℚ
  dataOwnershipPercent : ℚ
  dataUniquenessPercent : ℚ
  totalValuation : ℚ
  dataRelianceValuation : ℚ
  afterDecay : ℚ
  dataQualityScore : ℚ
  dataQualityMultiplier : ℚ
  upperADV : ℚ
  lowerADV : ℚ
  roundedUpperADV : ℤ
  roundedLowerADV : ℤ
  relianceSource : String
  attributableSource : String
deriving Repr, DecidableEq

/-- The arithmetic core of `generatePDVCalculation` (worker.ts lines
504-627), applied to the already-parsed extraction result and the
pre-analysis fallback metrics.  (The preceding Claude call and
`JSON.parse`, and the early `null` returns on empty answers or parse
failure, are handled at the pipeline level.) -/
def generatePDVCalculation (extractedData : PDVExtractedData)
    (preADVMetrics : PreADVExtractedMetrics) : PDVCalcOutput :=
  let dataReliancePercent :=
    sanitizePercent extractedData.dataReliancePercent
      preADVMetrics.dataReliancePercent
  let dataAttributablePercent :=
    sanitizePercent extractedData.dataAttributablePercent
      preADVMetrics.dataAttributePercent
  let dataScarcityPercent := preADVMetrics.dataScarcityPercent.getD 50
  let dataOwnershipPercent := preADVMetrics.dataOwnershipPercent.getD 80
  let dataUniquenessPercent := preADVMetrics.dataUniquenessPercent.getD 50
  let dataDecayPercent : ℚ := 12.5
  let lowerBoundDiscountPercent : ℚ := 30
  let totalValuation := extractedData.yearlyValuations.foldl (· + ·) 0
  let dataRelianceValuation := totalValuation * (dataReliancePercent / 100)
  let dataDecayMultiplier := 1 - dataDecayPercent / 100
  let afterDecay := dataRelianceValuation * dataDecayMultiplier
  let dataQualityScore :=
    (dataScarcityPercent + dataOwnershipPercent + dataUniquenessPercent) / 3
  let dataQualityMultiplier := dataQualityScore / 100
  let upperADV := afterDecay * dataQualityMultiplier
  let lowerDiscountMultiplier := 1 - lowerBoundDiscountPercent / 100
  let lowerADV := upperADV * lowerDiscountMultiplier
  { dataReliancePercent := dataReliancePercent
    dataAttributablePercent := dataAttributablePercent
    dataScarcityPercent := dataScarcityPercent
    dataOwnershipPercent := dataOwnershipPercent
    dataUniquenessPercent := dataUniquenessPercent
    totalValuation := totalValuation
    dataRelianceValuation := dataRelianceValuation
    afterDecay := afterDecay
    dataQualityScore := dataQualityScore
    dataQualityMultiplier := dataQualityMultiplier
    upperADV := upperADV
    lowerADV := lowerADV
    roundedUpperADV := jsRound upperADV
    roundedLowerADV := jsRound lowerADV
    relianceSource :=
      if isUnrealisticPercent extractedData.dataReliancePercent then "preADV"
      else "userInput"
    attributableSource :=
      if isUnrealisticPercent extractedData.dataAttributablePercent then "preADV"
      else "userInput" }

/-! ## Text helpers of worker.ts: percentage and JSON extraction

Strings are modelled as `List Char`.  The two regexes of the source are
small enough that their JS (leftmost, greedy-with-backtracking) matching
semantics can be implemented directly; for the patterns at hand a
greedy scan never needs to backtrack into a shorter repetition (any
shorter digit/whitespace run leaves a character that the next pattern
element rejects), so the implementations below are deterministic. -/

/-- The JS whitespace class used both by `\s` and by `String.trim`
(WhiteSpace plus LineTerminator; the rarely-used extra Unicode
`Space_Separator` members are not modelled). -/
def isJSWhitespace (c : Char) : Bool :=
  c = ' ' || c = '\t' || c = '\n' || c = '\r' ||
  c = Char.ofNat 11 || c = Char.ofNat 12 || c = Char.ofNat 0xa0 ||
  c = Char.ofNat 0x2028 || c = Char.ofNat 0x2029 || c = Char.ofNat 0xfeff

/-- JS `String.prototype.trim`. -/
def jsTrim (l : List Char) : List Char :=
  ((l.dropWhile isJSWhitespace).reverse.dropWhile isJSWhitespace).reverse

def isAsciiDigit (c : Char) : Bool := '0' ≤ c && c ≤ '9'

/-- Maximal digit prefix and the remainder (the greedy `\d+`). -/
def splitDigits : List Char → List Char × List Char
  | [] => ([], [])
  | c :: cs =>
    if isAsciiDigit c then
      let p := splitDigits cs
      (c :: p.1, p.2)
    else ([], c :: cs)

/-- Does `(?:%|percent)` (case-insensitive) match at the head? -/
def percentTokenAt (l : List Char) : Bool :=
  match l with
  | '%' :: _ => true
  | _ => (l.take 7).map Char.toLower = ['p', 'e', 'r', 'c', 'e', 'n', 't']

/-- One attempt of `/(\d+(?:\.\d+)?)\s*(?:%|percent)/i` anchored at the
head of `l`; returns the content of the capture group. -/
def percentMatchAt (l : List Char) : Option (List Char) :=
  match splitDigits l with
  | ([], _) => none
  | (d, rest) =>
    let fr : List Char × List Char :=
      match rest with
      | '.' :: rest2 =>
        match splitDigits rest2 with
        | ([], _) => ([], rest)
        | (d2, rest3) => ('.' :: d2, rest3)
      | _ => ([], rest)
    let rest4 := fr.2.dropWhile isJSWhitespace
    if percentTokenAt rest4 then some (d ++ fr.1) else none

/-- JS leftmost matching of the percentage regex: try every start
position left to right. -/
def firstPercentMatch : List Char → Option (List Char)
  | [] => none
  | c :: cs =>
    match percentMatchAt (c :: cs) with
    | some cap => some cap
    | none => firstPercentMatch cs

def digitsToNat (l : List Char) : ℕ :=
  l.foldl (fun n c => 10 * n + (c.toNat - '0'.toNat)) 0

/-- JS `parseFloat` restricted to the capture shape `\d+(\.\d+)?`
(exact rational value; binary floating-point rounding is not
modelled). -/
def parseDecimal (cap : List Char) : ℚ :=
  let intPart := cap.takeWhile (fun c => c ≠ '.')
  let fracPart := (cap.dropWhile (fun c => c ≠ '.')).drop 1
  (digitsToNat intPart : ℚ) + (digitsToNat fracPart : ℚ) / (10 : ℚ) ^ fracPart.length

/-- `extractPercentageFromText` (worker.ts lines 67-77): first match of
the percentage pattern, parsed, and returned only when it lies in
`[0, 100]` (`null` otherwise). -/
def extractPercentageFromText (text : List Char) : Option ℚ :=
  match firstPercentMatch text with
  | some cap =>
    let value := parseDecimal cap
    if 0 ≤ value ∧ value ≤ 100 then some value else none
  | none => none

/-! ## `extractJSON` (worker.ts lines 50-64)

The code-fence regex is
`/```(?:json)?\s*\n?([\s\S]*?)\n?```/`: leftmost fence, optional literal
`json`, greedy whitespace (which subsumes the following optional
newline), then the shortest body up to a closing fence (an optional
newline directly before the closing fence is excluded from the
capture).  The fallback regex `/\{[\s\S]*\}/` spans from the first
opening brace to the last closing brace. -/

/-- The rest of the input after the leftmost occurrence of three
backticks (the opening fence), if any. -/
def afterFence : List Char → Option (List Char)
  | [] => none
  | c :: cs =>
    if c = '`' ∧ cs.take 2 = ['`', '`'] then some (cs.drop 2)
    else afterFence cs

/-- Does the lazy body stop here: a closing fence, possibly preceded by
the optional newline the regex excludes from the capture? -/
def closesHere (l : List Char) : Bool :=
  match l with
  | '`' :: '`' :: '`' :: _ => true
  | '\n' :: '`' :: '`' :: '`' :: _ => true
  | _ => false

/-- Shortest prefix up to a closing fence (the lazy `([\s\S]*?)`). -/
def lazyClose : List Char → Option (List Char)
  | [] => none
  | c :: cs =>
    if closesHere (c :: cs) then some []
    else (lazyClose cs).map (fun b => c :: b)

/-- Capture group of the code-fence regex (`none` when the regex does
not match). -/
def codeBlockCapture (l : List Char) : Option (List Char) :=
  match afterFence l with
  | none => none
  | some r1 =>
    let r2 := if r1.take 4 = ['j', 's', 'o', 'n'] then r1.drop 4 else r1
    lazyClose (r2.dropWhile isJSWhitespace)

/-- Whole match of `/\{[\s\S]*\}/`: first opening brace through last
closing brace, when a closing brace follows the first opening one. -/
def braceMatch (l : List Char) : Option (List Char) :=
  let l1 := l.dropWhile (fun c => c ≠ '{')
  let l2 := (l1.reverse.dropWhile (fun c => c ≠ '}')).reverse
  if l1.isEmpty then none
  else if l2.isEmpty then none
  else some l2

/-- The brace-span fallback of `extractJSON`: the first-brace-to-last-
brace match when truthy, else the input unchanged.  (The brace match is
never the empty string, so its truthiness test is just the match
test.) -/
def extractJSONBraces (text : List Char) : List Char :=
  match braceMatch text with
  | some m => m
  | none => text

/-- `extractJSON` (worker.ts lines 50-64): trimmed code-fence capture if
a fence matches with a truthy (nonempty) capture — the source tests
`codeBlockMatch?.[1]` before trimming — else the brace span, else the
input unchanged. -/
def extractJSON (text : List Char) : List Char :=
  match codeBlockCapture text with
  | some cap => if cap.isEmpty then extractJSONBraces text else jsTrim cap
  | none => extractJSONBraces text

/-- `extractJSON` lifted to `String` for the pipeline model. -/
def extractJSONStr (s : String) : String := String.mk (extractJSON s.toList)

/-! ## Stage 1: `generatePrePDVData` (worker.ts lines 80-293) -/

/-- One row of the `dataProfileTable` of the summary JSON. -/
structure DataProfileRow where
  dataMetric : String
  estimate : String
  strategicSignificance : String
deriving Repr, DecidableEq

/-- The summary JSON requested by prompt 9 (worker.ts lines 234-249).
The metrics block reuses the `PreADVExtractedMetrics` shape. -/
structure SummaryJson where
  summary : String
  competitiveAdvantages : List String
  dataProfileTable : List DataProfileRow
  extractedMetrics : Option PreADVExtractedMetrics
deriving Repr, DecidableEq

/-- The empty-but-valid structure substituted when the summary JSON
fails to parse (worker.ts lines 252-258); it carries no
`extractedMetrics` block. -/
def emptySummaryJson : SummaryJson :=
  { summary := ""
    competitiveAdvantages := []
    dataProfileTable := []
    extractedMetrics := none }

/-- The nine Claude responses of stage 1, in prompt order. -/
structure PrePDVResponses where
  overviewText : String
  dataReliance : String
  dataAttribute : String
  dataUniqueness : String
  dataScarcity : String
  dataOwnership : String
  sectorReliance : String
  dataCollection : String
  summaryRaw : String
deriving Repr, DecidableEq

/-- The `preADVData` object stage 1 serializes (worker.ts lines
279-290). -/
structure PreADVData where
  overview : String
  dataReliance : String
  dataAttribute : String
  dataUniqueness : String
  dataScarcity : String
  dataOwnership : String
  sectorReliance : String
  dataCollection : String
  summary : SummaryJson
  extractedMetrics : PreADVExtractedMetrics
deriving Repr, DecidableEq

/-- `generatePrePDVData` (worker.ts lines 80-293) given the nine Claude
responses and `JSON.parse` for the summary type (`none` = the parse
threw): parse the summary (falling back to the empty structure), then
merge structured metrics with text-pattern fallbacks. -/
def generatePrePDVData (r : PrePDVResponses)
    (parseSummary : String → Option SummaryJson) : PreADVData :=
  let summaryJson := (parseSummary (extractJSONStr r.summaryRaw)).getD
    emptySummaryJson
  { overview := r.overviewText
    dataReliance := r.dataReliance
    dataAttribute := r.dataAttribute
    dataUniqueness := r.dataUniqueness
    dataScarcity := r.dataScarcity
    dataOwnership := r.dataOwnership
    sectorReliance := r.sectorReliance
    dataCollection := r.dataCollection
    summary := summaryJson
    extractedMetrics :=
      { dataReliancePercent :=
          (summaryJson.extractedMetrics.bind (fun m => m.dataReliancePercent)).orElse
            (fun _ => extractPercentageFromText r.dataReliance.toList)
        dataAttributePercent :=
          (summaryJson.extractedMetrics.bind (fun m => m.dataAttributePercent)).orElse
            (fun _ => extractPercentageFromText r.dataAttribute.toList)
        dataUniquenessPercent :=
          (summaryJson.extractedMetrics.bind (fun m => m.dataUniquenessPercent)).orElse
            (fun _ => extractPercentageFromText r.dataUniqueness.toList)
        dataScarcityPercent :=
          (summaryJson.extractedMetrics.bind (fun m => m.dataScarcityPercent)).orElse
            (fun _ => extractPercentageFromText r.dataScarcity.toList)
        dataOwnershipPercent :=
          (summaryJson.extractedMetrics.bind (fun m => m.dataOwnershipPercent)).orElse
            (fun _ => extractPercentageFromText r.dataOwnership.toList) } }

/-! ## The report pipeline (`processPDVReportJob`) and its worker

Every awaited external call is an `ExtResult` parameter: `ok` is the
value the call returned, `fail` is the message of the exception it
threw. -/

/-- Outcome of one external call. -/
inductive ExtResult (α : Type) where
  | ok : α → ExtResult α
  | fail : String → ExtResult α
deriving Repr, DecidableEq

/-- Postmark attachment shape (worker.ts lines 642-647). -/
structure EmailAttachment where
  Name : String
  Content : String
  ContentID : String
  ContentType : String
deriving Repr, DecidableEq

/-- The email-job payload (queue wire shape, index.ts schema `email` /
worker.ts `emailData`).  `subdomain` and `reportId` are optional: the
pipeline includes them, the `/update-mailing-job` replacement payload
does not.  The two body fields hold the fixed templates of
`generateEmailHTML`/`generateEmailText`. -/
structure EmailJobData where
  subdomain : Option String
  reportId : Option String
  fromEmail : String
  toEmail : String
  subject : String
  htmlBody : String
  textBody : String
  attachments : List EmailAttachment
deriving Repr, DecidableEq

/-- The fixed HTML template of worker.ts lines 813-852, abbreviated to
its identifying content (no claim depends on the markup). -/
def generateEmailHTML (reportTitle orgName : String) : String :=
  "Your PDV Report is Ready: " ++ reportTitle ++ " for " ++ orgName

/-- The fixed plain-text template of worker.ts lines 854-874,
abbreviated likewise. -/
def generateEmailText (reportTitle orgName : String) : String :=
  "Your " ++ reportTitle ++ " is Ready - " ++ orgName

/-- The strings `generatePDVCalculation` hands back to the pipeline
(worker.ts lines 623-627). -/
structure PDVStringsResult where
  advReportData : String
  lowerADVRange : String
  upperADVRange : String
deriving Repr, DecidableEq

/-- One attempted Prisma write, in pipeline/worker order. -/
inductive DbWrite where
  | reportMain (preADVData : Option PreADVData)
      (supplementADVData ADVdata lowerADVRange upperADVRange : Option String)
      (pdfReportData : Option String)
  | reportFailure (deliveryStatus errorMessage : String)
  | reportJobId (bullMQJobId : String)
  | notificationCreate (notificationTitle notificationDescription refLink : String)
      (notificationRead : Bool) (organizationId platformId : String)
deriving Repr, DecidableEq

/-- The report job payload (worker.ts lines 11-23). `platformId` is
`string | null`. -/
inductive ReportType where
  | PRE_ADV
  | PDV
  | SUPPLEMENT
deriving Repr, DecidableEq

structure QA where
  question : String
  answer : String
deriving Repr, DecidableEq

structure PDVReportJobData where
  reportId : String
  orgName : String
  workflowId : String
  reportType : ReportType
  userEmail : String
  platformId : Option String
  organizationId : String
  orgWorkflowId : String
  subdomain : String
  enableADV : Bool
  pdvAnswers : List QA
deriving Repr, DecidableEq

/-- Environment of one `processPDVReportJob` run: outcome of each stage
call plus the summary `JSON.parse` function. -/
structure PipelineEnv where
  stage1 : ExtResult PrePDVResponses
  parseSummary : String → Option SummaryJson
  stage2 : ExtResult String
  stage3 : ExtResult (Option PDVStringsResult)
  stage4 : ExtResult String
  persistDb : ExtResult Unit
  errorDb : ExtResult Unit

/-- Value of one `processPDVReportJob` run: the returned
`PDVReportJobResult` plus the attempted DB writes, in order.  The
function itself never throws: every failure path is caught and turned
into `success := false` (worker.ts lines 789-810). -/
structure PipelineResult where
  success : Bool
  error : Option String
  emailData : Option EmailJobData
  dbWrites : List DbWrite
deriving Repr, DecidableEq

/-- JS `s || null` on a string variable initialized to the empty
string. -/
def strOrNull (s : String) : Option String :=
  if s = "" then none else some s

/-- JS truthiness of a `string | null` value. -/
def strTruthy : Option String → Bool
  | some s => s ≠ ""
  | none => false

/-- JS template interpolation of a `string | null` value. -/
def jsTemplateStr : Option String → String
  | some s => s
  | none => "null"

/-- The `emailData` the pipeline returns on the happy path (worker.ts
lines 765-784). -/
def mkEmailData (jd : PDVReportJobData) (pdfReportData : String) :
    EmailJobData :=
  let reportTitle := "PDV Report - " ++ jd.orgName
  { subdomain := some jd.subdomain
    reportId := some jd.reportId
    fromEmail := "james@12butterflies.life"
    toEmail := jd.userEmail
    subject := "Your " ++ reportTitle ++ " is Ready"
    htmlBody := generateEmailHTML reportTitle jd.orgName
    textBody := generateEmailText reportTitle jd.orgName
    attachments := [{ Name := reportTitle ++ ".pdf"
                      Content := pdfReportData
                      ContentID := "adv-report-pdf"
                      ContentType := "application/pdf" }] }

/-- The `preADVReportData` variable after step 1 (worker.ts lines
671, 678-684): the serialized stage-1 artifact on success, the empty
string (modelled as `none`) when a stage-1 call threw. -/
def pipePreADVReportData (env : PipelineEnv) : Option PreADVData :=
  match env.stage1 with
  | .ok r => some (generatePrePDVData r env.parseSummary)
  | .fail _ => none

/-- The `supplementaryADVReportData` variable after step 2 (worker.ts
lines 672, 686-696). -/
def pipeSupplementary (env : PipelineEnv) : String :=
  match env.stage2 with
  | .ok s => s
  | .fail _ => ""

/-- The `(advReportData, lowerADVRange, upperADVRange)` variables after
step 3 (worker.ts lines 673-675, 698-716): set only when `enableADV`
and the calculation returned a result. -/
def pipeADVStrings (env : PipelineEnv) (jd : PDVReportJobData) :
    String × String × String :=
  if jd.enableADV then
    match env.stage3 with
    | .ok (some r) => (r.advReportData, r.lowerADVRange, r.upperADVRange)
    | _ => ("", "", "")
  else ("", "", "")

/-- The `pdfReportData` variable after step 4 (worker.ts lines
718-742). -/
def pipePdfReportData (env : PipelineEnv) : Option String :=
  match env.stage4 with
  | .ok s => some s
  | .fail _ => none

/-- The step-5 persist write (worker.ts lines 744-756), the pipeline's
durability checkpoint; attempted on every run. -/
def pipePersistWrite (env : PipelineEnv) (jd : PDVReportJobData) : DbWrite :=
  .reportMain (pipePreADVReportData env)
    (strOrNull (pipeSupplementary env))
    (strOrNull (pipeADVStrings env jd).1)
    (strOrNull (pipeADVStrings env jd).2.1)
    (strOrNull (pipeADVStrings env jd).2.2)
    (pipePdfReportData env)

/-- `processPDVReportJob` (worker.ts lines 651-811).  Stages 1-4 are
stage-locally caught (a failed stage leaves its artifact empty); the
persist write is the only call inside the outer `try` that is not, so
its failure reaches the outer catch, which attempts the error-status
write (itself caught) and returns a failure result without
rethrowing. -/
def processPDVReportJob (env : PipelineEnv) (jd : PDVReportJobData) :
    PipelineResult :=
  match env.persistDb with
  | .fail m =>
    { success := false
      error := some m
      emailData := none
      dbWrites := [pipePersistWrite env jd,
        .reportFailure "DELIVERY_FAILED" m] }
  | .ok _ =>
    if strTruthy (pipePdfReportData env) ∧ jd.userEmail ≠ "" then
      { success := true
        error := none
        emailData := some (mkEmailData jd ((pipePdfReportData env).getD ""))
        dbWrites := [pipePersistWrite env jd] }
    else
      { success := true
        error := none
        emailData := none
        dbWrites := [pipePersistWrite env jd] }

/-! ## The report worker (`setupPDVReportProcessor`, queue.ts 72-149) -/

/-- The payload passed to `emitter.emit` (queue.ts lines 109-120); note
`notificationRead` is the string `"false"` here and `platformId` is the
raw possibly-null value. -/
structure EmitPayload where
  notificationTitle : String
  notificationDescription : String
  refLink : String
  notificationRead : String
  organizationId : String
  platformId : Option String
deriving Repr, DecidableEq

/-- Environment of one worker invocation: the pipeline environment plus
the outcomes of the worker-level external calls. -/
structure WorkerEnv where
  pipe : PipelineEnv
  emailAdd : ExtResult String
  jobIdDb : ExtResult Unit
  notifDb : ExtResult Unit

/-- A successfully enqueued delivery job. -/
structure EnqueuedJob where
  data : EmailJobData
  delayMs : ℕ
  jobId : String
deriving Repr, DecidableEq

/-- Observable effects of one worker invocation.  `threw` is the error
the handler rethrows (queue.ts line 141), which makes the queue mark
the job failed; `returned = some _` means the job completes. -/
structure WorkerResult where
  enqueued : List EnqueuedJob
  emitted : List (String × EmitPayload)
  dbWrites : List DbWrite
  returned : Option PipelineResult
  threw : Option String
deriving Repr, DecidableEq

/-- The emitter key `notificationEvent_platform_org` with JS template
semantics for the possibly-null `platformId` (queue.ts line 110). -/
def mkNotifKey (jd : PDVReportJobData) : String :=
  "notificationEvent_" ++ jsTemplateStr jd.platformId ++ "_" ++
    jd.organizationId

/-- The one and only notification payload the worker ever emits
(queue.ts lines 111-120) — a fixed success text, whatever the pipeline
outcome. -/
def successEmitPayload (jd : PDVReportJobData) : EmitPayload :=
  { notificationTitle := "PDV Report Generated"
    notificationDescription :=
      "Your PDV report has been generated successfully. Email delivery has been scheduled."
    refLink := ""
    notificationRead := "false"
    organizationId := jd.organizationId
    platformId := jd.platformId }

/-- The matching durable record (queue.ts lines 123-133):
`notificationRead` is the boolean `false` and `platformId` goes through
JS `String(...)`. -/
def successNotifWrite (jd : PDVReportJobData) : DbWrite :=
  .notificationCreate "PDV Report Generated"
    "Your PDV report has been generated successfully. Email delivery has been scheduled."
    "" false jd.organizationId (jsTemplateStr jd.platformId)

/-- Notification tail of the worker: emit, then attempt the record
create; a create failure is rethrown by the worker catch. -/
def runNotifySteps (env : WorkerEnv) (jd : PDVReportJobData)
    (pr : PipelineResult) (enq : List EnqueuedJob)
    (writes : List DbWrite) : WorkerResult :=
  let emitted := [(mkNotifKey jd, successEmitPayload jd)]
  let writes2 := writes ++ [successNotifWrite jd]
  match env.notifDb with
  | .fail m =>
    { enqueued := enq, emitted := emitted, dbWrites := writes2
      returned := none, threw := some m }
  | .ok _ =>
    { enqueued := enq, emitted := emitted, dbWrites := writes2
      returned := some pr, threw := none }

/-- The worker handler registered by `setupPDVReportProcessor`
(queue.ts lines 77-143): run the pipeline; if it succeeded with email
data, enqueue the delivery job with a fixed 300000 ms delay and record
the job id; then (in every non-throwing path) emit and record the fixed
success notification and return the pipeline result.  Any worker-level
call that throws is rethrown (queue.ts line 141). -/
def setupPDVReportProcessor (env : WorkerEnv) (jd : PDVReportJobData) :
    WorkerResult :=
  let pr := processPDVReportJob env.pipe jd
  match pr.emailData, pr.success with
  | some ed, true =>
    (match env.emailAdd with
     | .fail m =>
       { enqueued := [], emitted := [], dbWrites := pr.dbWrites
         returned := none, threw := some m }
     | .ok jid =>
       let enq := [{ data := ed, delayMs := 300000, jobId := jid }]
       let writes := pr.dbWrites ++ [DbWrite.reportJobId jid]
       match env.jobIdDb with
       | .fail m =>
         { enqueued := enq, emitted := [], dbWrites := writes
           returned := none, threw := some m }
       | .ok _ => runNotifySteps env jd pr enq writes)
  | _, _ => runNotifySteps env jd pr [] pr.dbWrites

/-! ## The delivery worker (`setupQueueProcessor`, queue.ts 21-69) -/

/-- JS template interpolation of a possibly-undefined string. -/
def jsTemplateUndef : Option String → String
  | some s => s
  | none => "undefined"

/-- One `fetch` POST to the report webhook, with the fields of its JSON
body (queue.ts lines 41-51 and 54-64). -/
structure WebhookCall where
  url : String
  mailId : Option String
  success : Bool
  reportId : Option String
  error : Option String
deriving Repr, DecidableEq

/-- Environment of one delivery-worker invocation. -/
structure EmailWorkerEnv where
  send : ExtResult String
  webhookSuccess : ExtResult Unit
  webhookFailure : ExtResult Unit

structure HandlerReturn where
  jobId : String
  messageId : String
deriving Repr, DecidableEq

/-- Observable effects of one delivery-worker invocation.  The handler
performs no database access at all; its only reporting channel is the
webhook POST.  `threw = none` means the queue marks the job
completed. -/
structure EmailWorkerResult where
  webhookCalls : List WebhookCall
  returned : Option HandlerReturn
  threw : Option String
deriving Repr, DecidableEq

def webhookUrl (data : EmailJobData) : String :=
  "https://" ++ jsTemplateUndef data.subdomain ++
    ".one2b.io/api/send-adv-report/webhook"

/-- The handler registered by `setupQueueProcessor` (queue.ts lines
25-68): send the email via Postmark; on success POST a success webhook
and return the ids; on any failure (send or success-webhook) the catch
block POSTs a failure webhook with the error and swallows the error —
the handler only throws if that failure POST itself throws. -/
def setupQueueProcessor (jobId : String) (data : EmailJobData)
    (env : EmailWorkerEnv) : EmailWorkerResult :=
  match env.send with
  | .fail m =>
    let call : WebhookCall :=
      { url := webhookUrl data, mailId := none, success := false
        reportId := data.reportId, error := some m }
    (match env.webhookFailure with
     | .fail m2 => { webhookCalls := [call], returned := none, threw := some m2 }
     | .ok _ => { webhookCalls := [call], returned := none, threw := none })
  | .ok mid =>
    let call : WebhookCall :=
      { url := webhookUrl data, mailId := some mid, success := true
        reportId := data.reportId, error := none }
    (match env.webhookSuccess with
     | .fail m2 =>
       let fcall : WebhookCall :=
         { url := webhookUrl data, mailId := none, success := false
           reportId := data.reportId, error := some m2 }
       (match env.webhookFailure with
        | .fail m3 =>
          { webhookCalls := [call, fcall], returned := none, threw := some m3 }
        | .ok _ =>
          { webhookCalls := [call, fcall], returned := none, threw := none })
     | .ok _ =>
       { webhookCalls := [call]
         returned := some { jobId := jobId, messageId := mid }
         threw := none })

/-! ## The `/update-mailing-job` endpoint (index.ts 260-309, 841-890)

Both registrations are literally identical; one model covers both.
BullMQ `Job.updateData` replaces the job payload wholesale with the
given object. -/

structure UpdateMailingJobRequest where
  jobId : String
  fromEmail : String
  toEmail : String
  subject : String
  htmlBody : String
  textBody : String
  attachments : List EmailAttachment
deriving Repr, DecidableEq

inductive UpdateReply where
  | ok
  | jobNotFound
deriving Repr, DecidableEq

/-- The `/update-mailing-job` handler: look the job up in the email
queue (modelled as a map from job id to payload); when found, replace
its payload with exactly the six supplied fields and reply ok; when
not found, change nothing and reply with the error. -/
def updateMailingJobHandler (store : String → Option EmailJobData)
    (req : UpdateMailingJobRequest) :
    (String → Option EmailJobData) × UpdateReply :=
  match store req.jobId with
  | some _ =>
    (fun id =>
      if id = req.jobId then
        some { subdomain := none
               reportId := none
               fromEmail := req.fromEmail
               toEmail := req.toEmail
               subject := req.subject
               htmlBody := req.htmlBody
               textBody := req.textBody
               attachments := req.attachments }
      else store id,
     UpdateReply.ok)
  | none => (store, UpdateReply.jobNotFound)

/-! ## Concrete fixtures used by counterexamples and witnesses -/

def noParse : String → Option SummaryJson := fun _ => none

def sampleJobData : PDVReportJobData :=
  { reportId := "rep-1"
    orgName := "Acme"
    workflowId := "wf-1"
    reportType := .PDV
    userEmail := "user@example.com"
    platformId := some "plat-1"
    organizationId := "org-1"
    orgWorkflowId := "owf-1"
    subdomain := "acme"
    enableADV := false
    pdvAnswers := [] }

/-- A run whose render succeeded and whose persist write threw. -/
def samplePipelineEnvPersistFail : PipelineEnv :=
  { stage1 := .fail "claude down"
    parseSummary := noParse
    stage2 := .fail "claude down"
    stage3 := .ok none
    stage4 := .ok "PDFBASE64"
    persistDb := .fail "db down"
    errorDb := .ok () }

def sampleWorkerEnvPersistFail : WorkerEnv :=
  { pipe := samplePipelineEnvPersistFail
    emailAdd := .ok "42"
    jobIdDb := .ok ()
    notifDb := .ok () }

/-- A fully successful run. -/
def sampleWorkerEnvHappy : WorkerEnv :=
  { pipe :=
      { stage1 := .fail "claude down"
        parseSummary := noParse
        stage2 := .ok "supp"
        stage3 := .ok none
        stage4 := .ok "PDF64"
        persistDb := .ok ()
        errorDb := .ok () }
    emailAdd := .ok "42"
    jobIdDb := .ok ()
    notifDb := .ok () }

def sampleResponses : PrePDVResponses :=
  { overviewText := "Acme overview"
    dataReliance := "about 75% of revenue"
    dataAttribute := "around 70%"
    dataUniqueness := "60%"
    dataScarcity := "55%"
    dataOwnership := "80%"
    sectorReliance := "sector runs at 65%"
    dataCollection := "sensors and surveys"
    summaryRaw := "this is not json at all" }

/-! ## C5 and C10 fixtures -/

def sampleEmailJobData : EmailJobData :=
  { subdomain := some "acme"
    reportId := some "rep-1"
    fromEmail := "james@12butterflies.life"
    toEmail := "user@example.com"
    subject := "Your PDV Report - Acme is Ready"
    htmlBody := "html body"
    textBody := "text body"
    attachments := [] }

def sampleEmailEnvSendFail : EmailWorkerEnv :=
  { send := .fail "SMTP 550"
    webhookSuccess := .ok ()
    webhookFailure := .ok () }

def sampleStore : String → Option EmailJobData := fun id =>
  if id = "j1" then some sampleEmailJobData else none

def sampleUpdateReq : UpdateMailingJobRequest :=
  { jobId := "j1"
    fromEmail := "new-from@example.com"
    toEmail := "new-to@example.com"
    subject := "updated subject"
    htmlBody := "updated html"
    textBody := "updated text"
    attachments := [] }

/-! ## Theorems -/

/-- `jsRound` lands within one half of its argument, so both rounded
bounds are a nearest integer of the exact bound. -/
theorem jsRound_dist_le (q : ℚ) : |q - (jsRound q : ℚ)| ≤ 1 / 2 := by
  rw [abs_le]
  constructor
  · have h := Int.floor_le (q + 1 / 2)
    rw [jsRound]
    push_cast at h ⊢
    linarith
  · have h := Int.lt_floor_add_one (q + 1 / 2)
    rw [jsRound]
    push_cast at h ⊢
    linarith

/-- C1: with `yearlyValuations = [100, 200, 300]`, `reliancePercent = 80`
and `scarcity = ownership = uniqueness = 60`, the valuation pipeline
yields `totalValuation = 600`, `relianceValuation = 480`,
`afterDecay = 420` (decay fixed at 12.5 percent), quality multiplier
`3/5`, rounded `upperADV = 252` and rounded
`lowerADV = jsRound (252 * 7/10) = 176` (lower-bound discount fixed at
30 percent); and in general both bounds are rounded to a nearest
integer. -/
theorem pdv_arithmetic_deterministic :
    (∀ (years cur : ℚ) (attrib mr ma : Option ℚ),
      let out := generatePDVCalculation
        { yearsCollectingData := years
          dataAttributablePercent := attrib
          dataReliancePercent := some 80
          currentCompanyValue := cur
          yearlyValuations := [100, 200, 300] }
        { dataReliancePercent := mr
          dataAttributePercent := ma
          dataUniquenessPercent := some 60
          dataScarcityPercent := some 60
          dataOwnershipPercent := some 60 }
      out.totalValuation = 600 ∧
      out.dataRelianceValuation = 480 ∧
      out.afterDecay = 420 ∧
      out.dataQualityMultiplier = 3 / 5 ∧
      out.upperADV = 252 ∧
      out.lowerADV = 252 * (7 / 10) ∧
      out.roundedUpperADV = 252 ∧
      out.roundedLowerADV = 176) ∧
    (∀ (e : PDVExtractedData) (m : PreADVExtractedMetrics),
      |(generatePDVCalculation e m).upperADV -
        ((generatePDVCalculation e m).roundedUpperADV : ℚ)| ≤ 1 / 2 ∧
      |(generatePDVCalculation e m).lowerADV -
        ((generatePDVCalculation e m).roundedLowerADV : ℚ)| ≤ 1 / 2) := by
  constructor
  · intro years cur attrib mr ma
    refine ⟨by norm_num [generatePDVCalculation, sanitizePercent,
        isUnrealisticPercent], ?_, ?_, ?_, ?_, ?_, ?_, ?_⟩ <;>
      norm_num [generatePDVCalculation, sanitizePercent,
        isUnrealisticPercent, jsRound]
  · intro e m
    exact ⟨jsRound_dist_le _, jsRound_dist_le _⟩

/-- C2: the valuation-stage sanitization substitutes the fallback
(defaulting to 50 when absent) exactly when the extracted value lies
outside the open interval `(0, 100)` (in particular at 0 and at 100),
and keeps every value strictly inside it. -/
theorem sanitize_percent_spec :
    ∀ (x : ℚ) (fb : Option ℚ),
      (sanitizePercent (some x) fb =
        if 0 < x ∧ x < 100 then x else fb.getD 50) ∧
      sanitizePercent (some 0) fb = fb.getD 50 ∧
      sanitizePercent (some 100) fb = fb.getD 50 := by
  intro x fb
  refine ⟨?_, ?_, ?_⟩
  · by_cases h : 0 < x ∧ x < 100
    · rw [if_pos h]
      have : isUnrealisticPercent (some x) = false := by
        simp only [isUnrealisticPercent, Bool.or_eq_false_iff,
          decide_eq_false_iff_not]
        exact ⟨not_le.mpr h.1, not_le.mpr h.2⟩
      simp [sanitizePercent, this]
    · rw [if_neg h]
      have : isUnrealisticPercent (some x) = true := by
        simp only [isUnrealisticPercent, Bool.or_eq_true,
          decide_eq_true_eq]
        rcases not_and_or.mp h with h1 | h2
        · exact Or.inl (not_lt.mp h1)
        · exact Or.inr (not_lt.mp h2)
      simp [sanitizePercent, this]
  · simp [sanitizePercent, isUnrealisticPercent]
  · simp [sanitizePercent, isUnrealisticPercent]

theorem parseDecimal_nonneg (cap : List Char) : 0 ≤ parseDecimal cap := by
  unfold parseDecimal
  positivity

/-- C8 counterexample: on `"150%"` the extractor returns `none`; a
clamping extractor would return `some 100`. -/
theorem extract_percentage_not_clamped :
    extractPercentageFromText ['1', '5', '0', '%'] = none ∧
    ¬ extractPercentageFromText ['1', '5', '0', '%'] = some 100 := by
  have h1 : firstPercentMatch ['1', '5', '0', '%'] = some ['1', '5', '0'] := by
    decide
  have h2 : parseDecimal ['1', '5', '0'] = 150 := by
    have ht : ['1', '5', '0'].takeWhile (fun c => c ≠ '.') = ['1', '5', '0'] := by
      decide
    have hd : (['1', '5', '0'].dropWhile (fun c => c ≠ '.')).drop 1 = [] := by
      decide
    have h3 : digitsToNat ['1', '5', '0'] = 150 := by decide
    unfold parseDecimal
    rw [ht, hd]
    simp only [h3]
    norm_num [digitsToNat]
  have hout : extractPercentageFromText ['1', '5', '0', '%'] = none := by
    unfold extractPercentageFromText
    rw [h1]
    simp only [h2]
    rw [if_neg (by norm_num)]
  exact ⟨hout, by rw [hout]; exact fun h => Option.noConfusion h⟩

/-- C8 (amended): the extractor returns the first number immediately
preceding a percent token exactly when that number lies in `[0, 100]`,
and discards (returns `none` for) any out-of-range match instead of
clamping it; a matched number is never negative, so only the upper
bound can reject. -/
theorem extract_percentage_in_range_or_discarded :
    (∀ text : List Char,
      extractPercentageFromText text =
        match firstPercentMatch text with
        | none => none
        | some cap =>
          if parseDecimal cap ≤ 100 then some (parseDecimal cap) else none) ∧
    (∀ cap : List Char, 0 ≤ parseDecimal cap) := by
  constructor
  · intro text
    unfold extractPercentageFromText
    cases h : firstPercentMatch text with
    | none => rfl
    | some cap =>
      simp only
      by_cases h1 : parseDecimal cap ≤ 100
      · rw [if_pos ⟨parseDecimal_nonneg cap, h1⟩, if_pos h1]
      · rw [if_neg (fun hh => h1 hh.2), if_neg h1]
  · exact parseDecimal_nonneg

theorem afterFence_eq_none (l : List Char) (h : ∀ c ∈ l, c ≠ '`') :
    afterFence l = none := by
  induction l with
  | nil => rfl
  | cons c cs ih =>
    simp only [afterFence]
    rw [if_neg]
    · exact ih fun d hd => h d (List.mem_cons_of_mem c hd)
    · intro hcontra
      exact h c (List.mem_cons_self c cs) hcontra.1

theorem dropWhile_strip (p : Char → Bool) (a : List Char) (x : Char)
    (r : List Char) (ha : ∀ c ∈ a, p c = true) (hx : p x = false) :
    (a ++ x :: r).dropWhile p = x :: r := by
  induction a with
  | nil => simp [List.dropWhile, hx]
  | cons c cs ih =>
    have hc : p c = true := ha c (List.mem_cons_self c cs)
    simp [List.dropWhile, hc,
      ih (fun d hd => ha d (List.mem_cons_of_mem c hd))]

/-- C9 counterexample: `" [1,2,3] "` is clean JSON (an array, no prose,
no code fences), yet `extractJSON` does not return its trim: the input
holds no brace, so the brace fallback does not fire and the input comes
back unchanged, untrimmed. -/
theorem extractJSON_not_trim_on_clean_array :
    extractJSON [' ', '[', '1', ',', '2', ',', '3', ']', ' '] =
      [' ', '[', '1', ',', '2', ',', '3', ']', ' '] ∧
    jsTrim [' ', '[', '1', ',', '2', ',', '3', ']', ' '] =
      ['[', '1', ',', '2', ',', '3', ']'] ∧
    extractJSON [' ', '[', '1', ',', '2', ',', '3', ']', ' '] ≠
      jsTrim [' ', '[', '1', ',', '2', ',', '3', ']', ' '] := by
  refine ⟨by decide, by decide, by decide⟩

/-- C9 (amended): on input that is a clean JSON *object* — possibly
surrounded by whitespace, containing no backtick, whose trimmed form
starts with an opening and ends with a closing brace — `extractJSON`
returns exactly the trimmed input.  For clean JSON of other shapes the
idempotence equation does not hold in general: the counterexample shows
a brace-free array returned unchanged rather than trimmed. -/
theorem extractJSON_trim_on_clean_object
    (lw core tw : List Char)
    (hlw : ∀ c ∈ lw, isJSWhitespace c = true)
    (htw : ∀ c ∈ tw, isJSWhitespace c = true)
    (hnb : ∀ c ∈ lw ++ core ++ tw, c ≠ '`')
    (hhd : core.head? = some '{')
    (hlast : core.getLast? = some '}') :
    extractJSON (lw ++ core ++ tw) = core ∧
    jsTrim (lw ++ core ++ tw) = core := by
  obtain ⟨core1, rfl⟩ : ∃ t, core = '{' :: t := by
    cases core with
    | nil => simp at hhd
    | cons a t =>
      simp only [List.head?_cons, Option.some.injEq] at hhd
      subst hhd
      exact ⟨t, rfl⟩
  obtain ⟨rr, hrev⟩ : ∃ rr, ('{' :: core1).reverse = '}' :: rr := by
    have h1 : ('{' :: core1).reverse.head? = some '}' := by
      rw [List.head?_reverse]
      exact hlast
    cases hre : ('{' :: core1).reverse with
    | nil => rw [hre] at h1; simp at h1
    | cons b bs =>
      rw [hre] at h1
      simp only [List.head?_cons, Option.some.injEq] at h1
      subst h1
      exact ⟨bs, rfl⟩
  have hassoc : lw ++ ('{' :: core1) ++ tw = lw ++ '{' :: (core1 ++ tw) := by
    simp
  have hrev2 : ('{' :: (core1 ++ tw)).reverse = tw.reverse ++ '}' :: rr := by
    rw [show ('{' :: (core1 ++ tw)) = ('{' :: core1) ++ tw by simp,
      List.reverse_append, hrev]
  have hback : ('}' :: rr).reverse = '{' :: core1 := by
    rw [← hrev, List.reverse_reverse]
  have hTrim : jsTrim (lw ++ ('{' :: core1) ++ tw) = '{' :: core1 := by
    unfold jsTrim
    rw [hassoc, dropWhile_strip _ lw '{' (core1 ++ tw) hlw (by decide),
      hrev2,
      dropWhile_strip _ tw.reverse '}' rr
        (fun c hc => htw c (List.mem_reverse.mp hc)) (by decide),
      hback]
  have hwsLB : ∀ c, isJSWhitespace c = true → (decide (c ≠ '{')) = true := by
    intro c hc
    simp only [decide_eq_true_eq]
    intro heq
    subst heq
    exact absurd hc (by decide)
  have hwsRB : ∀ c, isJSWhitespace c = true → (decide (c ≠ '}')) = true := by
    intro c hc
    simp only [decide_eq_true_eq]
    intro heq
    subst heq
    exact absurd hc (by decide)
  have hfrontB : (lw ++ '{' :: (core1 ++ tw)).dropWhile
      (fun c => c ≠ '{') = '{' :: (core1 ++ tw) :=
    dropWhile_strip _ lw '{' (core1 ++ tw)
      (fun c hc => hwsLB c (hlw c hc)) (by decide)
  have hbackB : (tw.reverse ++ '}' :: rr).dropWhile
      (fun c => c ≠ '}') = '}' :: rr :=
    dropWhile_strip _ tw.reverse '}' rr
      (fun c hc => hwsRB c (htw c (List.mem_reverse.mp hc))) (by decide)
  have hBrace : braceMatch (lw ++ ('{' :: core1) ++ tw) =
      some ('{' :: core1) := by
    unfold braceMatch
    rw [hassoc]
    simp only [hfrontB, hrev2, hbackB, hback]
    rfl
  have hCB : codeBlockCapture (lw ++ ('{' :: core1) ++ tw) = none := by
    unfold codeBlockCapture
    rw [afterFence_eq_none _ hnb]
  refine ⟨?_, hTrim⟩
  unfold extractJSON extractJSONBraces
  rw [hCB, hBrace]

/-! ## Pipeline lemmas -/

theorem processPDVReportJob_persist_fail (env : PipelineEnv)
    (jd : PDVReportJobData) (m : String) (hp : env.persistDb = .fail m) :
    processPDVReportJob env jd =
      { success := false
        error := some m
        emailData := none
        dbWrites := [pipePersistWrite env jd,
          .reportFailure "DELIVERY_FAILED" m] } := by
  unfold processPDVReportJob
  rw [hp]

theorem processPDVReportJob_persist_ok_email (env : PipelineEnv)
    (jd : PDVReportJobData) (hp : env.persistDb = .ok ())
    (hc : strTruthy (pipePdfReportData env) = true ∧ jd.userEmail ≠ "") :
    processPDVReportJob env jd =
      { success := true
        error := none
        emailData := some (mkEmailData jd ((pipePdfReportData env).getD ""))
        dbWrites := [pipePersistWrite env jd] } := by
  unfold processPDVReportJob
  rw [hp, if_pos hc]

theorem processPDVReportJob_persist_ok_noemail (env : PipelineEnv)
    (jd : PDVReportJobData) (hp : env.persistDb = .ok ())
    (hc : ¬(strTruthy (pipePdfReportData env) = true ∧ jd.userEmail ≠ "")) :
    processPDVReportJob env jd =
      { success := true
        error := none
        emailData := none
        dbWrites := [pipePersistWrite env jd] } := by
  unfold processPDVReportJob
  rw [hp, if_neg hc]

theorem pipeline_no_jobid (env : PipelineEnv) (jd : PDVReportJobData)
    (jid : String) :
    DbWrite.reportJobId jid ∉ (processPDVReportJob env jd).dbWrites := by
  cases hp : env.persistDb with
  | fail m =>
    rw [processPDVReportJob_persist_fail env jd m hp]
    simp [pipePersistWrite]
  | ok u =>
    cases u
    by_cases hc : strTruthy (pipePdfReportData env) = true ∧ jd.userEmail ≠ ""
    · rw [processPDVReportJob_persist_ok_email env jd hp hc]
      simp [pipePersistWrite]
    · rw [processPDVReportJob_persist_ok_noemail env jd hp hc]
      simp [pipePersistWrite]

theorem pipeline_email_inv (env : PipelineEnv) (jd : PDVReportJobData)
    (ed : EmailJobData)
    (h : (processPDVReportJob env jd).emailData = some ed) :
    env.persistDb = .ok () ∧ strTruthy (pipePdfReportData env) = true ∧
    jd.userEmail ≠ "" ∧ ed = mkEmailData jd ((pipePdfReportData env).getD "") := by
  cases hp : env.persistDb with
  | fail m =>
    rw [processPDVReportJob_persist_fail env jd m hp] at h
    exact absurd h (by simp)
  | ok u =>
    cases u
    by_cases hc : strTruthy (pipePdfReportData env) = true ∧ jd.userEmail ≠ ""
    · rw [processPDVReportJob_persist_ok_email env jd hp hc] at h
      simp only [Option.some.injEq] at h
      exact ⟨rfl, hc.1, hc.2, h.symm⟩
    · rw [processPDVReportJob_persist_ok_noemail env jd hp hc] at h
      exact absurd h (by simp)

/-! ## Worker lemmas -/

theorem worker_no_email (env : WorkerEnv) (jd : PDVReportJobData)
    (he : (processPDVReportJob env.pipe jd).emailData = none) :
    (setupPDVReportProcessor env jd).enqueued = [] ∧
    (setupPDVReportProcessor env jd).emitted =
      [(mkNotifKey jd, successEmitPayload jd)] ∧
    (setupPDVReportProcessor env jd).dbWrites =
      (processPDVReportJob env.pipe jd).dbWrites ++ [successNotifWrite jd] := by
  simp only [setupPDVReportProcessor, runNotifySteps, he]
  cases hn : env.notifDb with
  | fail m => simp
  | ok u => cases u; simp

theorem worker_no_email_returns (env : WorkerEnv) (jd : PDVReportJobData)
    (he : (processPDVReportJob env.pipe jd).emailData = none)
    (hn : env.notifDb = .ok ()) :
    (setupPDVReportProcessor env jd).threw = none ∧
    (setupPDVReportProcessor env jd).returned =
      some (processPDVReportJob env.pipe jd) := by
  simp only [setupPDVReportProcessor, runNotifySteps, he, hn]
  constructor <;> trivial

theorem worker_happy (env : WorkerEnv) (jd : PDVReportJobData)
    (ed : EmailJobData) (jid : String)
    (he : (processPDVReportJob env.pipe jd).emailData = some ed)
    (hs : (processPDVReportJob env.pipe jd).success = true)
    (ha : env.emailAdd = .ok jid) :
    (setupPDVReportProcessor env jd).enqueued =
      [{ data := ed, delayMs := 300000, jobId := jid }] ∧
    DbWrite.reportJobId jid ∈ (setupPDVReportProcessor env jd).dbWrites := by
  simp only [setupPDVReportProcessor, runNotifySteps, he, hs, ha]
  cases hj : env.jobIdDb with
  | fail m => simp
  | ok u =>
    cases u
    cases hn : env.notifDb with
    | fail m => simp
    | ok u2 => cases u2; simp

theorem worker_pipeline_failed (env : WorkerEnv) (jd : PDVReportJobData)
    (hs : (processPDVReportJob env.pipe jd).success = false) :
    (setupPDVReportProcessor env jd).enqueued = [] := by
  cases he : (processPDVReportJob env.pipe jd).emailData with
  | none => exact (worker_no_email env jd he).1
  | some ed =>
    simp only [setupPDVReportProcessor, runNotifySteps, he, hs]
    cases hn : env.notifDb with
    | fail m => simp
    | ok u => cases u; simp

theorem worker_enqueued_inv (env : WorkerEnv) (jd : PDVReportJobData)
    (h : (setupPDVReportProcessor env jd).enqueued ≠ []) :
    ∃ ed jid, (processPDVReportJob env.pipe jd).emailData = some ed ∧
      (processPDVReportJob env.pipe jd).success = true ∧
      env.emailAdd = .ok jid := by
  cases he : (processPDVReportJob env.pipe jd).emailData with
  | none => exact absurd (worker_no_email env jd he).1 h
  | some ed =>
    cases hs : (processPDVReportJob env.pipe jd).success with
    | false => exact absurd (worker_pipeline_failed env jd hs) h
    | true =>
      cases ha : env.emailAdd with
      | fail m =>
        simp only [setupPDVReportProcessor, runNotifySteps, he, hs, ha] at h
        exact absurd rfl h
      | ok jid => exact ⟨ed, jid, rfl, rfl, rfl⟩

/-- C3 counterexample: a run whose persist write throws (the only
uncaught exception inside the pipeline) does update the report to
DELIVERY_FAILED, but nothing is rethrown: the worker handler returns
normally (`threw = none`, `returned` present), so the queue marks the
job completed, not failed. -/
theorem pdv_pipeline_failure_rethrow_cex :
    (setupPDVReportProcessor sampleWorkerEnvPersistFail sampleJobData).threw =
      none ∧
    (setupPDVReportProcessor sampleWorkerEnvPersistFail
      sampleJobData).returned.isSome = true ∧
    DbWrite.reportFailure "DELIVERY_FAILED" "db down" ∈
      (setupPDVReportProcessor sampleWorkerEnvPersistFail
        sampleJobData).dbWrites := by
  refine ⟨rfl, rfl, by decide⟩

/-- C3 (amended): when an uncaught exception escapes the stage-local
catches (the persist write failing with message `m`), the report record
is updated to DELIVERY_FAILED with that message — but the error is not
rethrown: `processPDVReportJob` returns `{success := false, error := m}`
and the worker (when its notification store call succeeds) completes
the queue job normally instead of marking it failed. -/
theorem pdv_pipeline_failure_recorded_not_rethrown
    (env : WorkerEnv) (jd : PDVReportJobData) (m : String)
    (hp : env.pipe.persistDb = .fail m)
    (hn : env.notifDb = .ok ()) :
    DbWrite.reportFailure "DELIVERY_FAILED" m ∈
      (setupPDVReportProcessor env jd).dbWrites ∧
    (setupPDVReportProcessor env jd).threw = none ∧
    (setupPDVReportProcessor env jd).returned =
      some (processPDVReportJob env.pipe jd) ∧
    (processPDVReportJob env.pipe jd).success = false ∧
    (processPDVReportJob env.pipe jd).error = some m := by
  have hpr := processPDVReportJob_persist_fail env.pipe jd m hp
  have he : (processPDVReportJob env.pipe jd).emailData = none := by rw [hpr]
  obtain ⟨h1, h2, h3⟩ := worker_no_email env jd he
  obtain ⟨h4, h5⟩ := worker_no_email_returns env jd he hn
  refine ⟨?_, h4, h5, by rw [hpr], by rw [hpr]⟩
  rw [h3, hpr]
  simp

theorem pdv_pipeline_failure_recorded_not_rethrown_witness :
    DbWrite.reportFailure "DELIVERY_FAILED" "db down" ∈
      (setupPDVReportProcessor sampleWorkerEnvPersistFail
        sampleJobData).dbWrites ∧
    (setupPDVReportProcessor sampleWorkerEnvPersistFail sampleJobData).threw =
      none ∧
    (setupPDVReportProcessor sampleWorkerEnvPersistFail sampleJobData).returned =
      some (processPDVReportJob samplePipelineEnvPersistFail sampleJobData) ∧
    (processPDVReportJob samplePipelineEnvPersistFail sampleJobData).success =
      false ∧
    (processPDVReportJob samplePipelineEnvPersistFail sampleJobData).error =
      some "db down" :=
  pdv_pipeline_failure_recorded_not_rethrown sampleWorkerEnvPersistFail
    sampleJobData "db down" rfl rfl

/-- C7: when the summary JSON of stage 1 fails to parse, the pipeline
substitutes the empty-but-valid structure (empty summary, empty
advantage list, empty table) instead of aborting, and the run still
reaches the persist stage: the step-5 report update is the first
attempted write on every such run, and it carries the stage-1 artifact
with the substituted summary. -/
theorem summary_parse_failure_is_isolated
    (r : PrePDVResponses) (p : String → Option SummaryJson)
    (s2 : ExtResult String) (s3 : ExtResult (Option PDVStringsResult))
    (s4 : ExtResult String) (pd ed : ExtResult Unit) (jd : PDVReportJobData)
    (hparse : p (extractJSONStr r.summaryRaw) = none) :
    (generatePrePDVData r p).summary = emptySummaryJson ∧
    pipePreADVReportData ⟨.ok r, p, s2, s3, s4, pd, ed⟩ =
      some (generatePrePDVData r p) ∧
    (processPDVReportJob ⟨.ok r, p, s2, s3, s4, pd, ed⟩ jd).dbWrites.head? =
      some (pipePersistWrite ⟨.ok r, p, s2, s3, s4, pd, ed⟩ jd) := by
  refine ⟨?_, rfl, ?_⟩
  · unfold generatePrePDVData
    rw [hparse]
    rfl
  · cases pd with
    | fail m => rfl
    | ok u =>
      cases u
      by_cases hc : strTruthy
          (pipePdfReportData ⟨.ok r, p, s2, s3, s4, .ok (), ed⟩) = true ∧
          jd.userEmail ≠ ""
      · rw [processPDVReportJob_persist_ok_email _ jd rfl hc]
        rfl
      · rw [processPDVReportJob_persist_ok_noemail _ jd rfl hc]
        rfl

theorem summary_parse_failure_is_isolated_witness :
    (generatePrePDVData sampleResponses noParse).summary = emptySummaryJson ∧
    pipePreADVReportData ⟨.ok sampleResponses, noParse, .ok "supp", .ok none,
        .ok "PDF64", .ok (), .ok ()⟩ =
      some (generatePrePDVData sampleResponses noParse) ∧
    (processPDVReportJob ⟨.ok sampleResponses, noParse, .ok "supp", .ok none,
        .ok "PDF64", .ok (), .ok ()⟩ sampleJobData).dbWrites.head? =
      some (pipePersistWrite ⟨.ok sampleResponses, noParse, .ok "supp",
        .ok none, .ok "PDF64", .ok (), .ok ()⟩ sampleJobData) :=
  summary_parse_failure_is_isolated sampleResponses noParse (.ok "supp")
    (.ok none) (.ok "PDF64") (.ok ()) (.ok ()) sampleJobData rfl

/-- C4 counterexample: a run that rendered a document (`stage4` ok,
nonempty) and has a recipient, but whose persist write threw, enqueues
no delivery job — refuting the claimed "if and only if both a rendered
document and a recipient address exist".  The full write list shows no
`bullMQJobId` update either. -/
theorem delivery_iff_cex :
    samplePipelineEnvPersistFail.stage4 = .ok "PDFBASE64" ∧
    sampleJobData.userEmail = "user@example.com" ∧
    (setupPDVReportProcessor sampleWorkerEnvPersistFail
      sampleJobData).enqueued = [] ∧
    (setupPDVReportProcessor sampleWorkerEnvPersistFail
      sampleJobData).dbWrites =
      [DbWrite.reportMain none none none none none (some "PDFBASE64"),
       DbWrite.reportFailure "DELIVERY_FAILED" "db down",
       successNotifWrite sampleJobData] := by
  refine ⟨rfl, rfl, rfl, by decide⟩

/-- C4 (amended): a delivery job is enqueued iff the persist step
succeeded, the render produced a (truthy) document and a recipient
address exists.  When the render stage failed, no delivery job is
enqueued and no bullMQJobId write happens.  When enqueued, the single
job carries the rendered document as a base64 attachment, a fixed
300000 ms delay, and its id is written to the report record. -/
theorem delivery_scheduling_conditional (env : WorkerEnv)
    (jd : PDVReportJobData) :
    (∀ m, env.pipe.stage4 = .fail m →
      (setupPDVReportProcessor env jd).enqueued = [] ∧
      ∀ jid, DbWrite.reportJobId jid ∉
        (setupPDVReportProcessor env jd).dbWrites) ∧
    (∀ pdf jid, env.pipe.persistDb = .ok () → env.pipe.stage4 = .ok pdf →
      pdf ≠ "" → jd.userEmail ≠ "" → env.emailAdd = .ok jid →
      (setupPDVReportProcessor env jd).enqueued =
        [{ data := mkEmailData jd pdf, delayMs := 300000, jobId := jid }] ∧
      (mkEmailData jd pdf).attachments =
        [{ Name := "PDV Report - " ++ jd.orgName ++ ".pdf"
           Content := pdf
           ContentID := "adv-report-pdf"
           ContentType := "application/pdf" }] ∧
      DbWrite.reportJobId jid ∈ (setupPDVReportProcessor env jd).dbWrites) ∧
    ((setupPDVReportProcessor env jd).enqueued ≠ [] →
      env.pipe.persistDb = .ok () ∧
      (∃ pdf, env.pipe.stage4 = .ok pdf ∧ pdf ≠ "") ∧
      jd.userEmail ≠ "") := by
  refine ⟨?_, ?_, ?_⟩
  · intro m hm
    have hnone : (processPDVReportJob env.pipe jd).emailData = none := by
      cases hp : env.pipe.persistDb with
      | fail m2 => rw [processPDVReportJob_persist_fail env.pipe jd m2 hp]
      | ok u =>
        cases u
        have hpdf : pipePdfReportData env.pipe = none := by
          simp [pipePdfReportData, hm]
        have hnc : ¬(strTruthy (pipePdfReportData env.pipe) = true ∧
            jd.userEmail ≠ "") := by
          rw [hpdf]
          intro hx
          simpa [strTruthy] using hx.1
        rw [processPDVReportJob_persist_ok_noemail env.pipe jd hp hnc]
    obtain ⟨h1, _, h3⟩ := worker_no_email env jd hnone
    refine ⟨h1, ?_⟩
    intro jid hmem
    rw [h3] at hmem
    rcases List.mem_append.mp hmem with h | h
    · exact pipeline_no_jobid env.pipe jd jid h
    · simp [successNotifWrite] at h
  · intro pdf jid hp h4 hpdf hmail ha
    have hpd : pipePdfReportData env.pipe = some pdf := by
      simp [pipePdfReportData, h4]
    have hc : strTruthy (pipePdfReportData env.pipe) = true ∧
        jd.userEmail ≠ "" := by
      rw [hpd]
      exact ⟨by simp [strTruthy, hpdf], hmail⟩
    have hrec := processPDVReportJob_persist_ok_email env.pipe jd hp hc
    have he : (processPDVReportJob env.pipe jd).emailData =
        some (mkEmailData jd pdf) := by
      rw [hrec]
      simp [hpd]
    have hs : (processPDVReportJob env.pipe jd).success = true := by
      rw [hrec]
    obtain ⟨h1, h2⟩ := worker_happy env jd _ jid he hs ha
    exact ⟨h1, rfl, h2⟩
  · intro h
    obtain ⟨ed, jid, he, hs, ha⟩ := worker_enqueued_inv env jd h
    obtain ⟨hp, htr, hmail, hed⟩ := pipeline_email_inv env.pipe jd ed he
    refine ⟨hp, ?_, hmail⟩
    cases h4 : env.pipe.stage4 with
    | fail m =>
      rw [show pipePdfReportData env.pipe = none by
        simp [pipePdfReportData, h4]] at htr
      simp [strTruthy] at htr
    | ok pdf =>
      refine ⟨pdf, rfl, ?_⟩
      rw [show pipePdfReportData env.pipe = some pdf by
        simp [pipePdfReportData, h4]] at htr
      simpa [strTruthy] using htr

/-- C6 counterexample: a failed run (`success = false`) still emits the
one fixed notification whose description announces the report "has been
generated successfully" — there is no failure variant, refuting
"a success variant on success, a failure variant on failure". -/
theorem notification_failure_variant_missing_cex :
    (processPDVReportJob samplePipelineEnvPersistFail sampleJobData).success =
      false ∧
    (setupPDVReportProcessor sampleWorkerEnvPersistFail sampleJobData).emitted =
      [(mkNotifKey sampleJobData, successEmitPayload sampleJobData)] ∧
    (successEmitPayload sampleJobData).notificationDescription =
      "Your PDV report has been generated successfully. Email delivery has been scheduled." := by
  exact ⟨rfl, rfl, rfl⟩

/-- C6 (amended): whenever the worker-level calls themselves do not
throw, exactly one NotificationEvent is emitted under the key
`notificationEvent_(platformId)_(organizationId)` and the matching
record create is attempted — but it is always the same fixed
success-variant event, whatever the pipeline outcome; no failure
variant exists. -/
theorem notification_always_success_variant
    (env : WorkerEnv) (jd : PDVReportJobData) (jid : String)
    (hA : env.emailAdd = .ok jid)
    (hJ : env.jobIdDb = .ok ()) :
    (setupPDVReportProcessor env jd).emitted =
      [(mkNotifKey jd, successEmitPayload jd)] ∧
    successNotifWrite jd ∈ (setupPDVReportProcessor env jd).dbWrites := by
  cases he : (processPDVReportJob env.pipe jd).emailData with
  | none =>
    obtain ⟨_, h2, h3⟩ := worker_no_email env jd he
    refine ⟨h2, ?_⟩
    rw [h3]
    simp
  | some ed =>
    cases hs : (processPDVReportJob env.pipe jd).success with
    | false =>
      simp only [setupPDVReportProcessor, runNotifySteps, he, hs]
      cases hn : env.notifDb with
      | fail m => constructor <;> simp
      | ok u => cases u; constructor <;> simp
    | true =>
      simp only [setupPDVReportProcessor, runNotifySteps, he, hs, hA, hJ]
      cases hn : env.notifDb with
      | fail m => constructor <;> simp
      | ok u => cases u; constructor <;> simp

theorem notification_always_success_variant_witness :
    (setupPDVReportProcessor sampleWorkerEnvHappy sampleJobData).emitted =
      [(mkNotifKey sampleJobData, successEmitPayload sampleJobData)] ∧
    successNotifWrite sampleJobData ∈
      (setupPDVReportProcessor sampleWorkerEnvHappy sampleJobData).dbWrites :=
  notification_always_success_variant sampleWorkerEnvHappy sampleJobData
    "42" rfl rfl

/-- C5 counterexample: when the mail transport fails, the delivery
handler POSTs a failure webhook and swallows the error: it performs no
record update of its own and does not rethrow (`threw = none`), so the
queue marks the job completed, not failed. -/
theorem email_transport_failure_cex :
    (setupQueueProcessor "j1" sampleEmailJobData sampleEmailEnvSendFail).threw =
      none ∧
    (setupQueueProcessor "j1" sampleEmailJobData
      sampleEmailEnvSendFail).returned = none ∧
    (setupQueueProcessor "j1" sampleEmailJobData
      sampleEmailEnvSendFail).webhookCalls =
      [{ url := "https://acme.one2b.io/api/send-adv-report/webhook"
         mailId := none
         success := false
         reportId := some "rep-1"
         error := some "SMTP 550" }] := by
  refine ⟨rfl, rfl, by decide⟩

/-- C5 (amended): on mail-transport failure the handler reports the
failure by POSTing `{success: false, reportId, error}` to the report
webhook and swallows the error — it touches no record store and does
not rethrow (unless that failure POST itself throws), so the queue job
completes. -/
theorem email_transport_failure_webhook_swallow
    (jobId : String) (data : EmailJobData) (env : EmailWorkerEnv) (m : String)
    (hs : env.send = .fail m)
    (hw : env.webhookFailure = .ok ()) :
    (setupQueueProcessor jobId data env).webhookCalls =
      [{ url := webhookUrl data
         mailId := none
         success := false
         reportId := data.reportId
         error := some m }] ∧
    (setupQueueProcessor jobId data env).threw = none ∧
    (setupQueueProcessor jobId data env).returned = none := by
  simp only [setupQueueProcessor, hs, hw]
  refine ⟨by trivial, by trivial, by trivial⟩

theorem email_transport_failure_webhook_swallow_witness :
    (setupQueueProcessor "j1" sampleEmailJobData
      sampleEmailEnvSendFail).webhookCalls =
      [{ url := webhookUrl sampleEmailJobData
         mailId := none
         success := false
         reportId := sampleEmailJobData.reportId
         error := some "SMTP 550" }] ∧
    (setupQueueProcessor "j1" sampleEmailJobData sampleEmailEnvSendFail).threw =
      none ∧
    (setupQueueProcessor "j1" sampleEmailJobData
      sampleEmailEnvSendFail).returned = none :=
  email_transport_failure_webhook_swallow "j1" sampleEmailJobData
    sampleEmailEnvSendFail "SMTP 550" rfl rfl

/-- C10: when the referenced job exists, `/update-mailing-job` replaces
the payload wholesale with exactly the six supplied fields: afterwards
`subdomain` and `reportId` are absent from the payload, the six fields
equal the request values, the handler replies ok, and every other job
is untouched. -/
theorem update_mailing_job_replaces_payload
    (store : String → Option EmailJobData) (req : UpdateMailingJobRequest)
    (old : EmailJobData) (h : store req.jobId = some old) :
    (updateMailingJobHandler store req).2 = UpdateReply.ok ∧
    (updateMailingJobHandler store req).1 req.jobId =
      some { subdomain := none
             reportId := none
             fromEmail := req.fromEmail
             toEmail := req.toEmail
             subject := req.subject
             htmlBody := req.htmlBody
             textBody := req.textBody
             attachments := req.attachments } ∧
    ((updateMailingJobHandler store req).1 req.jobId).bind
      (fun d => d.subdomain) = none ∧
    ((updateMailingJobHandler store req).1 req.jobId).bind
      (fun d => d.reportId) = none ∧
    ∀ id, id ≠ req.jobId → (updateMailingJobHandler store req).1 id =
      store id := by
  simp only [updateMailingJobHandler, h]
  refine ⟨by trivial, by simp, by simp, by simp, ?_⟩
  intro id hid
  simp [hid]

theorem update_mailing_job_replaces_payload_witness :
    (updateMailingJobHandler sampleStore sampleUpdateReq).2 =
      UpdateReply.ok ∧
    (updateMailingJobHandler sampleStore sampleUpdateReq).1
        sampleUpdateReq.jobId =
      some { subdomain := none
             reportId := none
             fromEmail := sampleUpdateReq.fromEmail
             toEmail := sampleUpdateReq.toEmail
             subject := sampleUpdateReq.subject
             htmlBody := sampleUpdateReq.htmlBody
             textBody := sampleUpdateReq.textBody
             attachments := sampleUpdateReq.attachments } :=
  ⟨(update_mailing_job_replaces_payload sampleStore sampleUpdateReq
      sampleEmailJobData rfl).1,
   (update_mailing_job_replaces_payload sampleStore sampleUpdateReq
      sampleEmailJobData rfl).2.1⟩

theorem extractJSON_trim_on_clean_object_witness :
    extractJSON ([' '] ++ ['{', '}'] ++ [' ']) = ['{', '}'] ∧
    jsTrim ([' '] ++ ['{', '}'] ++ [' ']) = ['{', '}'] :=
  extractJSON_trim_on_clean_object [' '] ['{', '}'] [' ']
    (by decide) (by decide) (by decide) (by decide) (by decide)
